import Mathlib

/-!
Shallow embedding of the `conpty` crate (Windows pseudo-console process
spawning) and proofs about it.

Conventions of the embedding:
* UTF-16 code units and raw bytes are modelled as `Nat`.
* Native handles (`HANDLE`, `HPCON`) are modelled as `Nat` identifiers.
* Fallible Win32 calls are modelled as oracles: an `Except Nat α` value
  (error code or result) supplied as an explicit argument, so that a
  function's control flow on success/failure is the object of study.
* Functions that matter for their side-effect ordering additionally
  return a trace (a `List` of action constructors) recording which
  native calls they issue, in order.
-/

namespace Conpty

/-! ### Environment block encoding (`src/process.rs`, `environment_block_unicode`) -/

/-- Embedding of `environment_block_unicode`.  The environment is a list of
`(key, value)` pairs, each already encoded as UTF-16 code units
(`OsStr::encode_wide`).  The Rust loop does
`b.extend(key); b.extend("=".encode_utf16()); b.extend(value); b.push(0)`;
`"=".encode_utf16()` is the single unit `61`.  If the accumulated block is
empty the function returns `[0, 0]`, otherwise it pushes one extra `0`. -/
def environment_block_unicode (env : List (List Nat × List Nat)) : List Nat :=
  let b := env.foldl (fun b kv => b ++ kv.1 ++ [61] ++ kv.2 ++ [0]) []
  if b.isEmpty then [0, 0] else b ++ [0]

/-- One encoded environment entry: `KEY=VALUE` followed by one terminator. -/
def envEntry (kv : List Nat × List Nat) : List Nat :=
  kv.1 ++ [61] ++ kv.2 ++ [0]

theorem env_foldl_eq (env : List (List Nat × List Nat)) (acc : List Nat) :
    env.foldl (fun b kv => b ++ kv.1 ++ [61] ++ kv.2 ++ [0]) acc
      = acc ++ (env.map envEntry).flatten := by
  induction env generalizing acc with
  | nil => simp
  | cons kv rest ih =>
      rw [List.foldl_cons, ih]
      simp [envEntry, List.append_assoc]

/-- C1: the environment-block encoder emits, for every environment map,
the entries `KEY=VALUE` each followed by one terminator unit, with exactly
one extra terminator appended after the last entry; the empty map encodes
to exactly two consecutive terminator units. -/
theorem environment_block_spec (env : List (List Nat × List Nat)) :
    environment_block_unicode env =
      if env = [] then [0, 0] else (env.map envEntry).flatten ++ [0] := by
  cases env with
  | nil => rfl
  | cons kv rest =>
      have hfold := env_foldl_eq (kv :: rest) []
      have hne : envEntry kv ≠ [] := by
        simp [envEntry]
      simp only [environment_block_unicode, hfold, List.nil_append]
      have hjoin : ((kv :: rest).map envEntry).flatten
          = envEntry kv ++ (rest.map envEntry).flatten := by
        simp
      rw [hjoin]
      have : (envEntry kv ++ (rest.map envEntry).flatten).isEmpty = false := by
        cases h : envEntry kv with
        | nil => exact absurd h hne
        | cons a l => simp
      simp [this]

/-! ### Command-line construction (`src/process.rs`, `build_commandline`) -/

/-- Embedding of `build_commandline`: start from the program name and, for
each argument, push a single space and the argument verbatim.  `OsString`
contents are modelled as `List Char`. -/
def build_commandline (program : List Char) (args : List (List Char)) : List Char :=
  args.foldl (fun buf arg => buf ++ [' '] ++ arg) program

/-- C8: the command line is exactly the program name followed by the
arguments joined by single spaces; every character of every argument is
carried over verbatim, with no escaping or quoting applied. -/
theorem build_commandline_spec (program : List Char) (args : List (List Char)) :
    build_commandline program args
      = program ++ (args.map (fun a => ' ' :: a)).flatten := by
  unfold build_commandline
  induction args generalizing program with
  | nil => simp
  | cons a rest ih =>
      rw [List.foldl_cons, ih]
      simp [List.append_assoc]

/-! ### Crate error type (`src/error.rs`) -/

/-- Embedding of the crate's `Error` enum.  Native error payloads are
modelled as `Nat` codes, `Duration` as its millisecond count, and
`WAIT_EVENT` as its numeric value. -/
inductive Error where
  | Win (code : Nat)
  | Timeout (millis : Nat)
  | WaitFailed (event : Nat)
  | InputClosed
  deriving DecidableEq

/-! ### Waiting for the process (`src/process.rs`, `wait_process`) -/

/-- Numeric value of `WAIT_OBJECT_0`. -/
def WAIT_OBJECT_0 : Nat := 0

/-- Numeric value of `WAIT_TIMEOUT` (0x102). -/
def WAIT_TIMEOUT : Nat := 258

/-- Numeric value of `INFINITE` (0xFFFFFFFF). -/
def INFINITE : Nat := 4294967295

/-- Oracle for the native calls `wait_process` makes on a process handle:
the `WAIT_EVENT` code `WaitForSingleObject` yields for a given
millisecond argument, and the outcome of `GetExitCodeProcess`. -/
structure WaitSys where
  waitForSingleObject : Nat → Nat
  getExitCodeProcess : Except Nat Nat

/-- Embedding of `wait_process`.  With `some timeout` an early return of
`Error::Timeout` fires exactly when `WaitForSingleObject` yields
`WAIT_TIMEOUT`; with `none` an early return of `Error::WaitFailed` fires
on any event other than `WAIT_OBJECT_0`.  Otherwise the exit code is
fetched with `GetExitCodeProcess` (whose failure propagates via `?` as
`Error::Win`). -/
def wait_process (sys : WaitSys) (timeout_millis : Option Nat) : Except Error Nat :=
  let early : Option Error :=
    match timeout_millis with
    | some timeout =>
        if sys.waitForSingleObject timeout = WAIT_TIMEOUT then
          some (Error.Timeout timeout)
        else
          none
    | none =>
        let ev := sys.waitForSingleObject INFINITE
        if ev = WAIT_OBJECT_0 then none else some (Error.WaitFailed ev)
  match early with
  | some e => Except.error e
  | none =>
      match sys.getExitCodeProcess with
      | Except.error e => Except.error (Error.Win e)
      | Except.ok code => Except.ok code

/-- C2: when the exit-code query succeeds, `wait(None)` never fails with a
timeout and fails exactly with `WaitFailed` on an abnormal (non-signalled)
wait outcome, returning the exit code otherwise; `wait(Some d)` fails with
`Timeout d` exactly when the wait times out, and otherwise returns the
retrieved exit code. -/
theorem wait_process_spec (sys : WaitSys) (d c : Nat)
    (hc : sys.getExitCodeProcess = Except.ok c) :
    (∀ t, wait_process sys none ≠ Except.error (Error.Timeout t)) ∧
    (sys.waitForSingleObject INFINITE ≠ WAIT_OBJECT_0 →
      wait_process sys none =
        Except.error (Error.WaitFailed (sys.waitForSingleObject INFINITE))) ∧
    (sys.waitForSingleObject INFINITE = WAIT_OBJECT_0 →
      wait_process sys none = Except.ok c) ∧
    (sys.waitForSingleObject d = WAIT_TIMEOUT →
      wait_process sys (some d) = Except.error (Error.Timeout d)) ∧
    (sys.waitForSingleObject d ≠ WAIT_TIMEOUT →
      wait_process sys (some d) = Except.ok c) := by
  refine ⟨?_, ?_, ?_, ?_, ?_⟩
  · intro t
    unfold wait_process
    by_cases h : sys.waitForSingleObject INFINITE = WAIT_OBJECT_0 <;>
      simp [h, hc]
  · intro h
    unfold wait_process
    simp [h]
  · intro h
    unfold wait_process
    simp [h, hc]
  · intro h
    unfold wait_process
    simp [h]
  · intro h
    unfold wait_process
    simp [h, hc]

/-- Concrete wait oracle: the process object is already signalled and
reports exit code 7. -/
def waitSysExited : WaitSys :=
  { waitForSingleObject := fun _ => 0, getExitCodeProcess := Except.ok 7 }

/-- Witness for C2 at a concrete oracle. -/
theorem wait_process_spec_witness :
    wait_process waitSysExited none ≠ Except.error (Error.Timeout 5) :=
  (wait_process_spec waitSysExited 100 7 rfl).1 5

/-! ### Teardown (`impl Drop for Process`, `impl Drop for PipeReader`,
`impl Drop for PipeWriter`) -/

/-- One native teardown action issued during `Drop for Process`. -/
inductive TeardownAction where
  | closePseudoConsole (h : Nat)
  | closeHandle (h : Nat)
  | deleteProcThreadAttributeList (p : Nat)
  | freeAttributeBuffer (p : Nat)
  deriving DecidableEq

/-- State of a `Process` value for teardown purposes: its two master pipe
handles, the process and thread handles of `_proc`, the attribute-list
pointer of `_proc_info`, and the pseudo-console object `_console`. -/
structure Process where
  input : Nat
  output : Nat
  proc_hProcess : Nat
  proc_hThread : Nat
  lpAttributeList : Nat
  console : Nat
  deriving DecidableEq

/-- Outcomes of the four `CloseHandle` calls issued in `Drop for Process`
(`ClosePseudoConsole`, `DeleteProcThreadAttributeList` and the `Box` free
cannot fail in the Rust signature). -/
structure ProcessDropIo where
  closeProcResult : Except Nat Unit
  closeThreadResult : Except Nat Unit
  closeInputResult : Except Nat Unit
  closeOutputResult : Except Nat Unit

/-- Result of running a destructor. -/
inductive DropOutcome where
  | completed
  | panicked
  deriving DecidableEq

/-- Embedding of `Drop for Process`: every native call is issued
unconditionally and every fallible result is discarded with `let _ =`,
so the trace is always the same seven actions and the drop completes. -/
def process_drop (p : Process) (io : ProcessDropIo) : List TeardownAction × DropOutcome :=
  let _ := io.closeProcResult
  let _ := io.closeThreadResult
  let _ := io.closeInputResult
  let _ := io.closeOutputResult
  ([TeardownAction.closePseudoConsole p.console,
    TeardownAction.closeHandle p.proc_hProcess,
    TeardownAction.closeHandle p.proc_hThread,
    TeardownAction.deleteProcThreadAttributeList p.lpAttributeList,
    TeardownAction.freeAttributeBuffer p.lpAttributeList,
    TeardownAction.closeHandle p.input,
    TeardownAction.closeHandle p.output], DropOutcome.completed)

/-- A concrete drop oracle where every close succeeds. -/
def dropIoOk : ProcessDropIo :=
  { closeProcResult := Except.ok (), closeThreadResult := Except.ok (),
    closeInputResult := Except.ok (), closeOutputResult := Except.ok () }

/-- C3 counterexample: on a process whose handles are the distinct values
input = 1, output = 2, hProcess = 3, hThread = 4, attribute list = 5,
console = 6, the teardown trace is not the claimed sequence, which would
close the output master endpoint before the input one. -/
theorem process_drop_order_counterexample :
    (process_drop ⟨1, 2, 3, 4, 5, 6⟩ dropIoOk).1 ≠
      [TeardownAction.closePseudoConsole 6,
       TeardownAction.closeHandle 3,
       TeardownAction.closeHandle 4,
       TeardownAction.deleteProcThreadAttributeList 5,
       TeardownAction.freeAttributeBuffer 5,
       TeardownAction.closeHandle 2,
       TeardownAction.closeHandle 1] := by
  decide

/-- C3 (amended): the teardown performs, in this fixed order: (1) close
the pseudo-console object; (2) close the process then the thread native
handle; (3) delete and free the attribute-list buffer; (4) close the two
master endpoints, input first and then output. -/
theorem process_drop_order (p : Process) (io : ProcessDropIo) :
    (process_drop p io).1 =
      [TeardownAction.closePseudoConsole p.console,
       TeardownAction.closeHandle p.proc_hProcess,
       TeardownAction.closeHandle p.proc_hThread,
       TeardownAction.deleteProcThreadAttributeList p.lpAttributeList,
       TeardownAction.freeAttributeBuffer p.lpAttributeList,
       TeardownAction.closeHandle p.input,
       TeardownAction.closeHandle p.output] := rfl

/-- Embedding of `Drop for PipeReader`:
`CloseHandle(self.handle).ok().unwrap()`.  `Result::ok` turns the outcome
into an `Option`, and `Option::unwrap` panics on `None`, i.e. exactly when
the close failed. -/
def pipeReader_drop (closeResult : Except Nat Unit) : DropOutcome :=
  match closeResult.toOption with
  | some _ => DropOutcome.completed
  | none => DropOutcome.panicked

/-- Embedding of `Drop for PipeWriter`, textually the same unwrap of the
`CloseHandle` outcome as in `Drop for PipeReader`. -/
def pipeWriter_drop (closeResult : Except Nat Unit) : DropOutcome :=
  match closeResult.toOption with
  | some _ => DropOutcome.completed
  | none => DropOutcome.panicked

/-- C7 counterexample: a failed close (native error code 5) during the
drop of a `PipeReader` panics, contradicting the claim that teardown of
any component never panics. -/
theorem pipe_drop_panics_counterexample :
    pipeReader_drop (Except.error 5) = DropOutcome.panicked := rfl

/-- C7 (amended): `Process` teardown never panics and always runs all of
its steps whatever the close outcomes, and the pipe wrapper drops complete
when the close succeeds; but `PipeReader` and `PipeWriter` drops unwrap
the close result and panic whenever the close fails. -/
theorem drop_failure_spec :
    (∀ (p : Process) (io : ProcessDropIo),
      (process_drop p io).2 = DropOutcome.completed ∧
      (process_drop p io).1.length = 7) ∧
    (pipeReader_drop (Except.ok ()) = DropOutcome.completed) ∧
    (∀ e, pipeReader_drop (Except.error e) = DropOutcome.panicked) ∧
    (pipeWriter_drop (Except.ok ()) = DropOutcome.completed) ∧
    (∀ e, pipeWriter_drop (Except.error e) = DropOutcome.panicked) :=
  ⟨fun _ _ => ⟨rfl, rfl⟩, rfl, fun _ => rfl, rfl, fun _ => rfl⟩

/-! ### Pipe reading (`src/io/reader.rs`) -/

/-- Native pipe calls `read_pipe` may issue.  `setNamedPipeHandleState` is
the mode-toggling call the source deliberately avoids (it would affect all
duplicated handles); it is listed so we can prove it is never emitted. -/
inductive PipeOp where
  | peekNamedPipe
  | readFile
  | setNamedPipeHandleState
  deriving DecidableEq

/-- The `std::io` error conditions `read_pipe` can produce: a propagated
native error, or the `WouldBlock` kind manufactured on an empty pipe. -/
inductive IoError where
  | os (code : Nat)
  | wouldBlock
  deriving DecidableEq

/-- Oracle for the native calls on one pipe handle: the outcome of
`PeekNamedPipe` (total bytes available) and of `ReadFile` (bytes read). -/
structure PipeSys where
  peekAvailable : Except Nat Nat
  readResult : Except Nat Nat

/-- Embedding of `pipe_available_bytes`: a single `PeekNamedPipe` call
whose failure propagates and whose success yields the byte count. -/
def pipe_available_bytes (sys : PipeSys) : Except IoError Nat × List PipeOp :=
  match sys.peekAvailable with
  | Except.error e => (Except.error (IoError.os e), [PipeOp.peekNamedPipe])
  | Except.ok n => (Except.ok n, [PipeOp.peekNamedPipe])

/-- Embedding of `read_from_pipe`: a single `ReadFile` call. -/
def read_from_pipe (sys : PipeSys) : Except IoError Nat × List PipeOp :=
  match sys.readResult with
  | Except.error e => (Except.error (IoError.os e), [PipeOp.readFile])
  | Except.ok n => (Except.ok n, [PipeOp.readFile])

/-- Embedding of `read_pipe`: in non-blocking mode first query the
available bytes (propagating a peek failure via `?`), return a
`WouldBlock` error if zero are available, and fall through to the plain
`read_from_pipe` otherwise; in blocking mode read directly. -/
def read_pipe (sys : PipeSys) (blocking : Bool) : Except IoError Nat × List PipeOp :=
  if blocking = false then
    match pipe_available_bytes sys with
    | (Except.error e, tr) => (Except.error e, tr)
    | (Except.ok available, tr) =>
        if available = 0 then
          (Except.error IoError.wouldBlock, tr)
        else
          let r := read_from_pipe sys
          (r.1, tr ++ r.2)
  else
    read_from_pipe sys

/-- C4: in non-blocking mode, when the peek succeeds with `a` available
bytes, the read returns `WouldBlock` iff `a = 0`; in that case the trace
is the peek alone (no `ReadFile` is issued), otherwise the normal read
result follows the peek; the first native call is always the peek, and the
shared mode-toggling call `SetNamedPipeHandleState`, which would affect
duplicated handles, is never issued. -/
theorem read_pipe_nonblocking_spec (sys : PipeSys) (a : Nat)
    (hp : sys.peekAvailable = Except.ok a) :
    ((read_pipe sys false).1 = Except.error IoError.wouldBlock ↔ a = 0) ∧
    (a = 0 → read_pipe sys false =
      (Except.error IoError.wouldBlock, [PipeOp.peekNamedPipe])) ∧
    (a ≠ 0 → read_pipe sys false =
      ((read_from_pipe sys).1, [PipeOp.peekNamedPipe, PipeOp.readFile])) ∧
    ((read_pipe sys false).2.head? = some PipeOp.peekNamedPipe) ∧
    (PipeOp.setNamedPipeHandleState ∉ (read_pipe sys false).2) := by
  by_cases h : a = 0
  · subst h
    refine ⟨?_, ?_, ?_, ?_, ?_⟩ <;>
      simp [read_pipe, pipe_available_bytes, read_from_pipe, hp]
  · have hr : read_pipe sys false =
        ((read_from_pipe sys).1, [PipeOp.peekNamedPipe, PipeOp.readFile]) := by
      unfold read_pipe pipe_available_bytes
      rw [hp]
      simp [h, read_from_pipe]
      cases hread : sys.readResult <;> simp
    refine ⟨?_, fun h0 => absurd h0 h, fun _ => hr, ?_, ?_⟩
    · rw [hr]
      simp only [iff_false, h]
      unfold read_from_pipe
      cases sys.readResult <;> simp
    · rw [hr]
      rfl
    · rw [hr]
      simp

/-- Concrete pipe oracle: peek reports an empty pipe. -/
def pipeSysEmpty : PipeSys :=
  { peekAvailable := Except.ok 0, readResult := Except.ok 0 }

/-- Witness for C4 at a concrete oracle: an empty pipe in non-blocking
mode yields `WouldBlock` with only a peek issued. -/
theorem read_pipe_nonblocking_spec_witness :
    read_pipe pipeSysEmpty false =
      (Except.error IoError.wouldBlock, [PipeOp.peekNamedPipe]) :=
  (read_pipe_nonblocking_spec pipeSysEmpty 0 rfl).2.1 rfl

/-! ### Attribute-list builder (`src/process.rs`,
`initializeStartupInfoAttachedToConPTY`) -/

/-- Oracle for the native calls of the attribute-list builder: the first
(null-buffer) `InitializeProcThreadAttributeList` call as the pair
(did it report success?, size written through the out-parameter), then the
second `InitializeProcThreadAttributeList` call on the real buffer, then
`UpdateProcThreadAttribute`. -/
structure AttrListSys where
  initialSizing : Bool × Nat
  initWithBuffer : Except Nat Unit
  updateAttribute : Except Nat Unit

/-- Observable result of the builder, standing in for `STARTUPINFOEXW`:
the explicitly zeroed standard handles and the `STARTF_USESTDHANDLES`
flag, the size of the allocated attribute-list buffer (`none` while no
buffer is allocated), and the value stored in the single
`PROC_THREAD_ATTRIBUTE_PSEUDOCONSOLE` slot. -/
structure STARTUPINFOEXW where
  hStdInput : Nat
  hStdOutput : Nat
  hStdError : Nat
  useStdHandles : Bool
  attrListSize : Option Nat
  pseudoConsoleAttr : Option Nat
  deriving DecidableEq

/-- Embedding of `initializeStartupInfoAttachedToConPTY`.  The custom
`win::Error` built from `HRESULT::default()` is modelled as error code 0.
The `vec![0u8; size]` allocation is recorded as `attrListSize := some
size`, and `UpdateProcThreadAttribute` storing the pseudo-console's native
value is recorded in `pseudoConsoleAttr`. -/
def initializeStartupInfoAttachedToConPTY (sys : AttrListSys) (hPC : Nat) :
    Except Nat STARTUPINFOEXW :=
  let siEx : STARTUPINFOEXW :=
    { hStdInput := 0, hStdOutput := 0, hStdError := 0, useStdHandles := true,
      attrListSize := none, pseudoConsoleAttr := none }
  let res := sys.initialSizing.1
  let size := sys.initialSizing.2
  if res = true ∨ size = 0 then
    Except.error 0
  else
    let siEx := { siEx with attrListSize := some size }
    match sys.initWithBuffer with
    | Except.error e => Except.error e
    | Except.ok _ =>
        match sys.updateAttribute with
        | Except.error e => Except.error e
        | Except.ok _ => Except.ok { siEx with pseudoConsoleAttr := some hPC }

/-- C5: if the first sizing call reports success the builder fails with an
OS error; and whenever the builder succeeds, the first sizing call had
failed, the buffer was allocated with exactly the reported size, the
initializer ran again on the real buffer, and the single attribute slot
holds the pseudo-console object's native value. -/
theorem initializeStartupInfo_spec (sys : AttrListSys) (hPC : Nat)
    (si : STARTUPINFOEXW) :
    (sys.initialSizing.1 = true →
      initializeStartupInfoAttachedToConPTY sys hPC = Except.error 0) ∧
    (initializeStartupInfoAttachedToConPTY sys hPC = Except.ok si →
      sys.initialSizing.1 = false ∧
      si.attrListSize = some sys.initialSizing.2 ∧
      sys.initWithBuffer = Except.ok () ∧
      sys.updateAttribute = Except.ok () ∧
      si.pseudoConsoleAttr = some hPC) := by
  constructor
  · intro hres
    unfold initializeStartupInfoAttachedToConPTY
    simp [hres]
  · intro hok
    unfold initializeStartupInfoAttachedToConPTY at hok
    by_cases hres : sys.initialSizing.1 = true ∨ sys.initialSizing.2 = 0
    · simp [hres] at hok
    · simp only [hres, if_false] at hok
      cases hinit : sys.initWithBuffer with
      | error e => rw [hinit] at hok; cases hok
      | ok u =>
          rw [hinit] at hok
          cases hupd : sys.updateAttribute with
          | error e => rw [hupd] at hok; cases hok
          | ok v =>
              rw [hupd] at hok
              cases hok
              push_neg at hres
              exact ⟨by simpa using hres.1, rfl, rfl, rfl, rfl⟩

/-- Concrete attribute-list oracle: the sizing call fails reporting 24
bytes, and the two follow-up calls succeed. -/
def attrSysGood : AttrListSys :=
  { initialSizing := (false, 24), initWithBuffer := Except.ok (),
    updateAttribute := Except.ok () }

/-- Witness for C5 at a concrete oracle. -/
theorem initializeStartupInfo_spec_witness :
    attrSysGood.initialSizing.1 = false ∧
    ({ hStdInput := 0, hStdOutput := 0, hStdError := 0, useStdHandles := true,
       attrListSize := some 24, pseudoConsoleAttr := some 42 } :
        STARTUPINFOEXW).attrListSize = some attrSysGood.initialSizing.2 ∧
    attrSysGood.initWithBuffer = Except.ok () ∧
    attrSysGood.updateAttribute = Except.ok () ∧
    ({ hStdInput := 0, hStdOutput := 0, hStdError := 0, useStdHandles := true,
       attrListSize := some 24, pseudoConsoleAttr := some 42 } :
        STARTUPINFOEXW).pseudoConsoleAttr = some 42 :=
  (initializeStartupInfo_spec attrSysGood 42 _).2 rfl

/-! ### Console size and spawning (`src/process.rs`, `inhirentConsoleSize`
and `spawn_command`) -/

/-- A `COORD` value: `X` is the column count, `Y` the row count.  The Rust
fields are `i16`, modelled as `Int`. -/
structure COORD where
  X : Int
  Y : Int
  deriving DecidableEq

/-- The `srWindow` rectangle of a `CONSOLE_SCREEN_BUFFER_INFO`. -/
structure SMALL_RECT where
  Left : Int
  Top : Int
  Right : Int
  Bottom : Int
  deriving DecidableEq

/-- Embedding of `inhirentConsoleSize`: on success of
`GetConsoleScreenBufferInfo` (modelled by the oracle argument carrying the
`srWindow` rectangle) return the window dimensions
`(Right - Left + 1, Bottom - Top + 1)`; a failure (of `CreateFileW` on
`CONOUT$` or of the query) propagates.  The initial `COORD { X: 24, Y: 80 }`
in the source is dead: both fields are overwritten before returning. -/
def inhirentConsoleSize (screenBufferInfo : Except Nat SMALL_RECT) : Except Nat COORD :=
  match screenBufferInfo with
  | Except.error e => Except.error e
  | Except.ok srWindow =>
      Except.ok { X := srWindow.Right - srWindow.Left + 1,
                  Y := srWindow.Bottom - srWindow.Top + 1 }

/-- Embedding of the size-selection expression of `spawn_command`:
`size.or_else(|| inhirentConsoleSize().ok()).unwrap_or(COORD { X: 80, Y: 25 })`. -/
def spawnConsoleSize (size : Option COORD)
    (screenBufferInfo : Except Nat SMALL_RECT) : COORD :=
  ((size.orElse fun _ => (inhirentConsoleSize screenBufferInfo).toOption)).getD
    { X := 80, Y := 25 }

/-- The `PROCESS_INFORMATION` record produced by `CreateProcessW`. -/
structure PROCESS_INFORMATION where
  hProcess : Nat
  hThread : Nat
  deriving DecidableEq

/-- Oracle for the native calls `spawn_command` makes, in program order:
`enableVirtualTerminalSequenceProcessing` on the calling process's
console, `GetConsoleScreenBufferInfo` (through `inhirentConsoleSize`),
`createPseudoConsole` as a function of the size it is given (returning
the console object and the parent-facing output and input handles), the
attribute-list calls, and `CreateProcessW` (through `execProc`). -/
structure SpawnSys where
  enableVT : Except Nat Unit
  screenBufferInfo : Except Nat SMALL_RECT
  createPseudoConsole : COORD → Except Nat (Nat × Nat × Nat)
  attrList : AttrListSys
  createProcess : Except Nat PROCESS_INFORMATION

/-- The record `spawn_command` assembles on success, mirroring
`Process { input, output, _console, _proc, _proc_info }`. -/
structure SpawnedProcess where
  input : Nat
  output : Nat
  console : Nat
  proc : PROCESS_INFORMATION
  proc_info : STARTUPINFOEXW
  deriving DecidableEq

/-- Embedding of `spawn_command`: the result of
`enableVirtualTerminalSequenceProcessing` is discarded with `let _ =`,
the console size is selected by `spawnConsoleSize`, and the pipeline
`createPseudoConsole` → `initializeStartupInfoAttachedToConPTY` →
`execProc` aborts on the first failure (converted into `Error::Win`). -/
def spawn_command (sys : SpawnSys) (size : Option COORD) : Except Error SpawnedProcess :=
  let _ := sys.enableVT
  let size := spawnConsoleSize size sys.screenBufferInfo
  match sys.createPseudoConsole size with
  | Except.error e => Except.error (Error.Win e)
  | Except.ok (console, output, input) =>
      match initializeStartupInfoAttachedToConPTY sys.attrList console with
      | Except.error e => Except.error (Error.Win e)
      | Except.ok startup_info =>
          match sys.createProcess with
          | Except.error e => Except.error (Error.Win e)
          | Except.ok proc =>
              Except.ok { input := input, output := output, console := console,
                          proc := proc, proc_info := startup_info }

/-- C6: the console size used for session creation is the caller-supplied
size when one was given; otherwise the current terminal's screen-buffer
window dimensions queried at session-creation time; and the hard fallback
of 80 columns by 25 rows when that inheritance fails. -/
theorem console_size_spec (s : COORD) (r : SMALL_RECT) (e : Nat)
    (info : Except Nat SMALL_RECT) :
    (spawnConsoleSize (some s) info = s) ∧
    (spawnConsoleSize none (Except.ok r) =
      { X := r.Right - r.Left + 1, Y := r.Bottom - r.Top + 1 }) ∧
    (inhirentConsoleSize (Except.ok r) =
      Except.ok { X := r.Right - r.Left + 1, Y := r.Bottom - r.Top + 1 }) ∧
    (spawnConsoleSize none (Except.error e) = { X := 80, Y := 25 }) :=
  ⟨rfl, rfl, rfl, rfl⟩

/-- C10: a failure of `enableVirtualTerminalSequenceProcessing` is
discarded: `spawn_command` behaves identically whether the
virtual-terminal toggle failed with any error or succeeded, in particular
it still creates the pseudo console and launches the process. -/
theorem spawn_ignores_vt_failure (sys : SpawnSys) (e : Nat) (size : Option COORD) :
    spawn_command { sys with enableVT := Except.error e } size
      = spawn_command { sys with enableVT := Except.ok () } size := rfl

/-! ### Cloning a reader (`src/io/reader.rs`, `PipeReader::try_clone`) -/

/-- The fields of a `PipeReader`: the wrapped handle and the per-instance
blocking flag consulted by `read`. -/
structure PipeReader where
  handle : Nat
  blocking : Bool
  deriving DecidableEq

/-- Embedding of `PipeReader::new`: every new reader starts in blocking
mode. -/
def PipeReader.new (handle : Nat) : PipeReader :=
  { handle := handle, blocking := true }

/-- Embedding of the `PipeReader::blocking(on)` setter: it flips only this
instance's flag. -/
def PipeReader.set_blocking (r : PipeReader) (flag : Bool) : PipeReader :=
  { r with blocking := flag }

/-- Embedding of `clone_handle` (`src/util.rs`): `DuplicateHandle` on the
given handle, modelled by the duplication oracle `dup`. -/
def clone_handle (dup : Nat → Except Nat Nat) (handle : Nat) : Except Nat Nat :=
  dup handle

/-- Embedding of `PipeReader::try_clone`:
`clone_handle(self.handle).map(Self::new)`. -/
def PipeReader.try_clone (dup : Nat → Except Nat Nat) (r : PipeReader) :
    Except Nat PipeReader :=
  (clone_handle dup r.handle).map PipeReader.new

/-- C9: a successful `try_clone` always yields a reader in blocking mode,
and the clone is the same whatever the blocking flag of the instance being
cloned: the per-instance non-blocking setting is not carried over. -/
theorem try_clone_blocking_spec (dup : Nat → Except Nat Nat)
    (r c : PipeReader) (b : Bool)
    (h : PipeReader.try_clone dup r = Except.ok c) :
    c.blocking = true ∧
    PipeReader.try_clone dup (PipeReader.set_blocking r b)
      = PipeReader.try_clone dup r := by
  refine ⟨?_, rfl⟩
  unfold PipeReader.try_clone clone_handle at h
  cases hd : dup r.handle with
  | error e => rw [hd] at h; cases h
  | ok h2 =>
      rw [hd] at h
      cases h
      rfl

/-- A concrete duplication oracle: duplicating handle `h` yields `h + 100`. -/
def dupShift (h : Nat) : Except Nat Nat := Except.ok (h + 100)

/-- Witness for C9 at a concrete oracle: cloning a non-blocking reader on
handle 3 succeeds and the clone is in blocking mode. -/
theorem try_clone_blocking_spec_witness :
    ({ handle := 103, blocking := true } : PipeReader).blocking = true ∧
    PipeReader.try_clone dupShift
        (PipeReader.set_blocking { handle := 3, blocking := false } true)
      = PipeReader.try_clone dupShift { handle := 3, blocking := false } :=
  try_clone_blocking_spec dupShift { handle := 3, blocking := false }
    { handle := 103, blocking := true } true rfl

end Conpty
